import Mathlib

/-!
Shallow embedding of the `lazy_activity_pub` crate: the ActivityPub data
model (entity types, contexts, objects, actors, content, activities) and
the discoverability-resolution functions, translated from the Rust
sources, together with theorems settling the specification claims.
-/

set_option maxRecDepth 4096

namespace LazyActivityPub

/-- Model of `serde_json::Value`: JSON values as used for untyped payloads
(`Activity.object`) and for `@context` term mappings. Objects are modelled
as association lists in source order; `get` returns the first binding. -/
inductive Json where
  | null : Json
  | bool (b : Bool) : Json
  | num (n : Int) : Json
  | str (s : String) : Json
  | arr (items : List Json) : Json
  | obj (fields : List (String × Json)) : Json

/-- `serde_json::Value::get(key)` for object values: first binding wins. -/
def Json.get (v : Json) (key : String) : Option Json :=
  match v with
  | .obj fields => (fields.find? (fun p => p.1 == key)).map (·.2)
  | _ => none

/-- `serde_json::Value::is_object`. -/
def Json.is_object (v : Json) : Bool :=
  match v with
  | .obj _ => true
  | _ => false

/-- `serde_json::Value::is_string`. -/
def Json.is_string (v : Json) : Bool :=
  match v with
  | .str _ => true
  | _ => false

/-- `serde_json::Value::is_array`. -/
def Json.is_array (v : Json) : Bool :=
  match v with
  | .arr _ => true
  | _ => false

/-- `serde_json::Value::as_str`. -/
def Json.as_str (v : Json) : Option String :=
  match v with
  | .str s => some s
  | _ => none

/-- `serde_json::Value::as_array`. -/
def Json.as_array (v : Json) : Option (List Json) :=
  match v with
  | .arr items => some items
  | _ => none

/-- Model of `url::Url`: the URL in its serialized string form. The
sources compare URLs either directly (`ContextItem::matches_url`) or via
`as_str`, both of which coincide with string equality of serialized forms. -/
structure Url where
  str : String
deriving DecidableEq, Repr

/-- Rust `str::contains(pattern)` on character lists: `pat` occurs as a
contiguous substring of `hay`. -/
def strContainsAux (hay pat : List Char) : Bool :=
  pat.isPrefixOf hay ||
    match hay with
    | [] => false
    | _ :: t => strContainsAux t pat

/-- Rust `str::contains(pattern)`: substring containment. -/
def strContains (hay pat : String) : Bool :=
  strContainsAux hay.data pat.data

/-- Modelled from the spec: the `url` crate's parser (an external library,
not part of the sources). The spec uses only that the empty string is not
a valid URL while well-formed absolute URLs parse; the model accepts a
string exactly when it carries a nonempty scheme before `://` (in
particular the empty string is rejected). -/
def Url.parse (s : String) : Option Url :=
  if strContains s "://" && !(("://".data).isPrefixOf s.data) then
    some ⟨s⟩
  else
    none

/-- `EntityType` from `entity.rs`: the closed taxonomy of recognized
object/activity/actor/tag kinds plus the `Unknown` catch-all. -/
inductive EntityType where
  | Accept | Announce | Create | Delete | Follow | Reject | Undo | Update
  | Actor | Application | Organization | Group | Person | Service
  | Collection | CollectionPage | OrderedCollection | OrderedCollectionPage
  | Article | Image | Link | Movie | Note | Page | Poll | Question
  | Tombstone | Video
  | Emoji | Hashtag | Tag | Mention
  | PropertyValue
  | Document
  | Unknown
deriving DecidableEq, Repr

/-- `is_supported_content_type` from `entity.rs`. -/
def is_supported_content_type (entity_type : EntityType) : Bool :=
  match entity_type with
  | .Note | .Video | .Movie | .Article => true
  | _ => false

/-- `is_actor_type` from `entity.rs`. -/
def is_actor_type (entity_type : EntityType) : Bool :=
  match entity_type with
  | .Actor | .Application | .Person | .Organization | .Service => true
  | _ => false

/-- `entity_type_from` from `entity.rs`: string-to-type conversion used
for inner-payload typing. Note `"Movie"` maps to `Page`. -/
def entity_type_from (value : String) : EntityType :=
  match value with
  | "Actor" => .Actor
  | "Application" => .Application
  | "Group" => .Group
  | "Organization" => .Organization
  | "Person" => .Person
  | "Service" => .Service
  | "Article" => .Article
  | "Image" => .Image
  | "Movie" => .Page
  | "Note" => .Note
  | "Poll" => .Poll
  | "Question" => .Question
  | "Tombstone" => .Tombstone
  | "Video" => .Video
  | _ => .Unknown

/-- The wire names of the `EntityType` variants, in declaration order,
paired with their variants: the identifier table the serde derive matches
a `type` string against. -/
def entityTypeWireTable : List (String × EntityType) :=
  [("Accept", .Accept), ("Announce", .Announce), ("Create", .Create),
   ("Delete", .Delete), ("Follow", .Follow), ("Reject", .Reject),
   ("Undo", .Undo), ("Update", .Update),
   ("Actor", .Actor), ("Application", .Application),
   ("Organization", .Organization), ("Group", .Group),
   ("Person", .Person), ("Service", .Service),
   ("Collection", .Collection), ("CollectionPage", .CollectionPage),
   ("OrderedCollection", .OrderedCollection),
   ("OrderedCollectionPage", .OrderedCollectionPage),
   ("Article", .Article), ("Image", .Image), ("Link", .Link),
   ("Movie", .Movie), ("Note", .Note), ("Page", .Page), ("Poll", .Poll),
   ("Question", .Question), ("Tombstone", .Tombstone), ("Video", .Video),
   ("Emoji", .Emoji), ("Hashtag", .Hashtag), ("Tag", .Tag),
   ("Mention", .Mention), ("PropertyValue", .PropertyValue),
   ("Document", .Document)]

/-- Deserialization of a `type` string into `EntityType` as generated by
the serde derive with `#[serde(other)] Unknown`: a recognized variant name
yields its variant, every other string yields `Unknown` (it is total:
there is no error path for unrecognized strings). -/
def deserialize_entity_type (s : String) : EntityType :=
  match entityTypeWireTable.find? (fun p => p.1 == s) with
  | some p => p.2
  | none => .Unknown

/-- The recognized wire names of `EntityType` variants. -/
def entityTypeWireNames : List String := entityTypeWireTable.map (·.1)

/-- The strings matched by `entity_type_from` (everything else maps to
`Unknown`). -/
def entityTypeFromNames : List String :=
  ["Actor", "Application", "Group", "Organization", "Person", "Service",
   "Article", "Image", "Movie", "Note", "Poll", "Question", "Tombstone",
   "Video"]

/-- Alias for the `Url` type, usable inside inductives that declare a
constructor also named `Url`. -/
abbrev UrlT := Url

/-- Alias for `List`, usable inside namespaces where an inductive declares
a constructor also named `List`. -/
abbrev ListT := List

/-- `ContextItem` from `context.rs`: an entry of the `@context` property. -/
inductive ContextItem where
  | Url (u : UrlT) : ContextItem
  | Mapping (m : List (String × Json)) : ContextItem

/-- `ContextItem::matches_url`. -/
def ContextItem.matches_url (item : ContextItem) (url : UrlT) : Bool :=
  match item with
  | .Url item_url => item_url = url
  | .Mapping _ => false

/-- `ContextItem::has_definition`: key presence in a term mapping. -/
def ContextItem.has_definition (item : ContextItem) (key : String) : Bool :=
  match item with
  | .Url _ => false
  | .Mapping map => map.any (fun p => p.1 == key)

/-- Alias for the `ContextItem` type, usable inside inductives that
declare a constructor also named `ContextItem`. -/
abbrev ContextItemT := ContextItem

/-- `Context` from `context.rs`: the `@context` property. -/
inductive Context where
  | ContextItem (item : ContextItemT) : Context
  | List (l : List ContextItemT) : Context

/-- `Context::matches_url`. -/
def Context.matches_url (c : Context) (url : Url) : Bool :=
  match c with
  | .ContextItem item => item.matches_url url
  | .List list => list.any (fun item => item.matches_url url)

/-- `Context::has_definition`. -/
def Context.has_definition (c : Context) (name : String) : Bool :=
  match c with
  | .ContextItem item => item.has_definition name
  | .List list => list.any (fun item => item.has_definition name)

/-- `AllowReason` from `discoverable.rs`. -/
inductive AllowReason where
  | Discoverable
  | Indexable
  | FedinekoProperty
  | SearchableBy (url : String)
  | Assumed
deriving DecidableEq, Repr

/-- `DenyReason` from `discoverable.rs`. -/
inductive DenyReason where
  | Discoverable
  | Indexable
  | FedinekoProperty
  | OptedOut
  | Ban
  | Default
deriving DecidableEq, Repr

/-- `Discoverable` from `discoverable.rs`: the indexing-consent verdict. -/
inductive Discoverable where
  | Allowed (reason : AllowReason)
  | Denied (reason : DenyReason)
deriving DecidableEq, Repr

/-- `Discoverable::is_allowed_indexing`. -/
def Discoverable.is_allowed_indexing (d : Discoverable) : Bool :=
  match d with
  | .Allowed _ => true
  | .Denied _ => false

/-- `Entity` from `entity.rs`: the minimal shared header
(`@context` + `type`). -/
structure Entity where
  context : Option Context
  object_type : EntityType

/-- `Link` from `object.rs`. -/
structure Link where
  entity : Entity
  href : Url

/-- Alias for the `Link` type, usable inside inductives that declare a
constructor also named `Link`. -/
abbrev LinkT := Link

/-- `UrlReference` from `object.rs`: the wire shapes of a link property. -/
inductive UrlReference where
  | Url (u : UrlT)
  | Link (l : LinkT)
  | LinkList (links : List LinkT)
  | UrlList (urls : List UrlT)

/-- `UrlReference::as_vec`. -/
def UrlReference.as_vec (r : UrlReference) : List UrlT :=
  match r with
  | .Url url => [url]
  | .Link link => [link.href]
  | .LinkList links => links.map (·.href)
  | .UrlList urls => urls

/-- `UrlReference::any_url`: first URL of the canonical sequence. -/
def UrlReference.any_url (r : UrlReference) : Option UrlT :=
  r.as_vec.head?

/-- `Object` from `object.rs` (the `more_properties` feature is off, so
`preview` and `summary` are absent).

The recipient (`to`) field and the `Object::matches` method are referenced
by `Activity::to_field_matches` but are missing from the sources; they are
modelled from the spec below. -/
structure Object where
  entity : Entity
  id : Url
  name : Option String
  url : Option UrlReference
  /-- Modelled from the spec: the activity-level recipient field
  (`to`), a list of addressee strings, consulted by
  `Activity::to_field_matches` case (a). Missing from the sources.
  (Named `to_field` because `to` is reserved.) -/
  to_field : Option (List String)

/-- `Object::object_url`. -/
def Object.object_url (o : Object) : Option Url :=
  o.url.bind (·.any_url)

/-- `ObjectTrait::context` for `Object`. -/
def Object.context (o : Object) : Option Context :=
  o.entity.context

/-- `ObjectTrait::object_id` for `Object`. -/
def Object.object_id (o : Object) : Url :=
  o.id

/-- `ObjectTrait::object_id_str`. -/
def Object.object_id_str (o : Object) : String :=
  o.object_id.str

/-- `ObjectTrait::entity_type` for `Object`. -/
def Object.entity_type (o : Object) : EntityType :=
  o.entity.object_type

/-- Modelled from the spec: `Object::matches`, the activity-level
recipient check of `Activity::to_field_matches` case (a) — "the
activity-level recipient field textually contains `pattern`". Missing
from the sources. -/
def Object.matches (o : Object) (pattern : String) : Bool :=
  match o.to_field with
  | none => false
  | some addressees => addressees.any (fun s => strContains s pattern)

/-- `ObjectReference` from `object.rs`. -/
inductive ObjectReference where
  | Object (o : LazyActivityPub.Object)
  | Url (u : UrlT)

/-- `ObjectReference::object_id`. -/
def ObjectReference.object_id (r : ObjectReference) : UrlT :=
  match r with
  | .Object obj => obj.id
  | .Url url => url

/-- `Attachment` from `attachment.rs`. -/
structure Attachment where
  object_type : EntityType
  content : Option String
  name : Option String
  url : Option Url
  media_type : Option String
deriving DecidableEq, Repr

/-- Alias for the `Attachment` type. -/
abbrev AttachmentT := Attachment

/-- `AttachmentReference` from `attachment.rs`. -/
inductive AttachmentReference where
  | Single (a : AttachmentT)
  | List (l : List AttachmentT)

/-- `AttachmentReference::as_vec`. -/
def AttachmentReference.as_vec (r : AttachmentReference) : ListT AttachmentT :=
  match r with
  | .Single attachment => [attachment]
  | .List attachments => attachments

/-- `AttachmentReference::into_vec`. -/
def AttachmentReference.into_vec (r : AttachmentReference) : ListT AttachmentT :=
  match r with
  | .Single attachment => [attachment]
  | .List attachments => attachments

/-- `Image` from `image.rs`. -/
structure Image where
  url : Option Url
  summary : Option String
  media_type : Option String
  sensitive : Option Bool
  width : Option Nat
  height : Option Nat

/-- `Image::from_url`. -/
def Image.from_url (url : Url) : Image :=
  { url := some url, summary := none, media_type := none,
    sensitive := none, width := none, height := none }

/-- Alias for the `Image` type. -/
abbrev ImageT := Image

/-- `ImageReference` from `image.rs`. -/
inductive ImageReference where
  | Url (u : UrlT)
  | Single (i : ImageT)
  | List (l : List ImageT)

/-- `ImageReference::to_vec`. -/
def ImageReference.to_vec (r : ImageReference) : ListT ImageT :=
  match r with
  | .Single icon => [icon]
  | .List icons => icons
  | .Url url => [Image.from_url url]

/-- `Tag` from `tag.rs` (the `more_properties` feature is off, so `url`
is absent). -/
structure Tag where
  entity : Entity
  id : Option UrlReference
  name : Option String
  icon : Option ImageReference

/-- `Tag::object_id`. -/
def Tag.object_id (t : Tag) : Option Url :=
  t.id.bind (·.any_url)

/-- `Tag::entity_type`. -/
def Tag.entity_type (t : Tag) : EntityType :=
  t.entity.object_type

/-- Alias for the `Tag` type. -/
abbrev TagT := Tag

/-- `TagReference` from `tag.rs`. -/
inductive TagReference where
  | Single (t : TagT)
  | List (l : List TagT)

/-- `TagReference::as_vec`. -/
def TagReference.as_vec (r : TagReference) : ListT TagT :=
  match r with
  | .Single tag => [tag]
  | .List tags => tags

/-- `PublicKey` from `actor.rs`. -/
structure PublicKey where
  id : Url
  owner : Url
  public_key_pem : String

/-- Alias for the `PublicKey` type. -/
abbrev PublicKeyT := PublicKey

/-- `PublicKeyReference` from `actor.rs`. -/
inductive PublicKeyReference where
  | Single (k : PublicKeyT)
  | List (l : List PublicKeyT)

/-- `PublicKeyReference::as_vec`. -/
def PublicKeyReference.as_vec (r : PublicKeyReference) : ListT PublicKeyT :=
  match r with
  | .Single public_key => [public_key]
  | .List public_keys => public_keys

/-- `Endpoints` from `actor.rs` (the `more_properties` feature is off, so
only `sharedInbox` remains). -/
structure Endpoints where
  shared_inbox : Option Url

/-- `Actor` from `actor.rs` (the `more_properties` feature is off, so
`outbox` and `liked` are absent). The `nameMap` map is modelled as an
association list. -/
structure Actor where
  object_entity : Object
  inbox : Url
  followers : Option Url
  following : Option Url
  preferred_username : Option String
  endpoints : Option Endpoints
  name_map : Option (List (String × String))
  summary : Option String
  icon : Option ImageReference
  public_key : Option PublicKeyReference
  indexable : Option Bool
  discoverable : Option Bool
  searchable_by : Option (List Url)
  tag : Option TagReference
  attachment : Option AttachmentReference

/-- `ObjectTrait::context` for `Actor`. -/
def Actor.context (a : Actor) : Option Context :=
  a.object_entity.context

/-- `ObjectTrait::object_id` for `Actor`. -/
def Actor.object_id (a : Actor) : Url :=
  a.object_entity.object_id

/-- `ObjectTrait::object_id_str` for `Actor`. -/
def Actor.object_id_str (a : Actor) : String :=
  a.object_id.str

/-- `ObjectTrait::entity_type` for `Actor`. -/
def Actor.entity_type (a : Actor) : EntityType :=
  a.object_entity.entity_type

/-- `Actor::name`. -/
def Actor.name (a : Actor) : Option String :=
  a.object_entity.name

/-- The `SECURITY_CONTEXT` once-cell from `actor.rs`:
`url::Url::parse("https://w3id.org/security/v1")` (the string is already
in serialized form). -/
def security_context_url : Url :=
  ⟨"https://w3id.org/security/v1"⟩

/-- `Actor::validate_security_context`: `none` when the actor's context
declares the security schema but no public key is present, otherwise a
reference to the (unchanged) actor. -/
def Actor.validate_security_context (a : Actor) : Option Actor :=
  match a.context with
  | none => some a
  | some context =>
    if !(context.matches_url security_context_url) then
      some a
    else if a.public_key.isNone then
      none
    else
      some a

/-- `Actor::is_person`. -/
def Actor.is_person (a : Actor) : Bool :=
  match a.entity_type with
  | .Person => true
  | _ => false

/-- `is_public_searchable_by` from `actor.rs`: first URL in
`searchable_by` equal to the well-known public address or to the Fedineko
public address yields `Allowed(SearchableBy(url))`. -/
def is_public_searchable_by (searchable_by : List Url) : Option Discoverable :=
  match searchable_by with
  | [] => none
  | url :: rest =>
    if url.str = "https://www.w3.org/ns/activitystreams#Public" ∨
       url.str = "https://fedineko.org/indexing#Public" then
      some (.Allowed (.SearchableBy url.str))
    else
      is_public_searchable_by rest

/-- The attachment loop of `Actor::get_discoverable_state`
(actor.rs lines 198–221): skip attachments that are not `PropertyValue`,
lack a `name` or a `content`, or are not named `fedineko:index`; on the
first qualifying attachment return `Allowed(FedinekoProperty)` when its
content is `"allow"` and `Denied(FedinekoProperty)` otherwise. -/
def fedineko_attachment_scan (attachments : List Attachment) :
    Option Discoverable :=
  match attachments with
  | [] => none
  | attachment :: rest =>
    if attachment.object_type ≠ EntityType.PropertyValue then
      fedineko_attachment_scan rest
    else if attachment.name.isNone then
      fedineko_attachment_scan rest
    else if attachment.content.isNone then
      fedineko_attachment_scan rest
    else
      match attachment.name, attachment.content with
      | some name, some content =>
        if name = "fedineko:index" then
          some (if content = "allow" then
                  .Allowed .FedinekoProperty
                else
                  .Denied .FedinekoProperty)
        else
          fedineko_attachment_scan rest
      | _, _ => fedineko_attachment_scan rest

/-- The `attachments` vector of `Actor::get_discoverable_state`:
`self.attachment.iter().flat_map(|att| att.as_vec()).collect()`. -/
def Actor.attachments_vec (a : Actor) : List Attachment :=
  match a.attachment with
  | none => []
  | some att => att.as_vec

/-- The `searchableBy` step shared by `Actor::get_discoverable_state` and
`Content::get_discoverable_state`:
`if let Some(searchable_by) = ... { if let Some(reason) = is_public_searchable_by(...) }`. -/
def searchable_by_verdict (searchable_by : Option (List Url)) :
    Option Discoverable :=
  match searchable_by with
  | some urls => is_public_searchable_by urls
  | none => none

/-- `Actor::get_discoverable_state`: resolve the actor's discoverability
from the fedineko attachment property, `searchableBy`, context presence,
and the `indexable`/`discoverable` flags, in that order. -/
def Actor.get_discoverable_state (a : Actor) : Discoverable :=
  match fedineko_attachment_scan a.attachments_vec with
  | some verdict => verdict
  | none =>
    match searchable_by_verdict a.searchable_by with
    | some reason => reason
    | none =>
      match a.context with
      | none => .Denied .Default
      | some context =>
        if context.has_definition "indexable" then
          match a.indexable with
          | some true => .Allowed .Indexable
          | some false => .Denied .Indexable
          | none => .Denied .Indexable
        else if context.has_definition "discoverable" then
          match a.discoverable with
          | some true => .Allowed .Discoverable
          | some false => .Denied .Discoverable
          | none => .Denied .Discoverable
        else
          .Allowed .Assumed

/-- Alias for the `Actor` type, usable inside inductives that declare a
constructor also named `Actor`. -/
abbrev ActorT := Actor

/-- Alias for the `Object` type. -/
abbrev ObjectT := Object

/-- `ActorReference` from `actor.rs`. -/
inductive ActorReference where
  | Actor (a : ActorT)
  | BasicData (o : ObjectT)
  | Url (u : UrlT)

/-- `ActorReference::id`. -/
def ActorReference.id (r : ActorReference) : UrlT :=
  match r with
  | .Actor actor => actor.object_id
  | .Url url => url
  | .BasicData object => object.object_id

/-- `ActorReference::entity_type`. -/
def ActorReference.entity_type (r : ActorReference) : Option EntityType :=
  match r with
  | .Actor actor => some actor.entity_type
  | .Url _ => none
  | .BasicData object => some object.entity_type

/-- Alias for the `ActorReference` type. -/
abbrev ActorReferenceT := ActorReference

/-- `CompoundActorReference` from `actor.rs`. -/
inductive CompoundActorReference where
  | Reference (r : ActorReferenceT)
  | List (l : List ActorReferenceT)

/-- The predicate closure inside `CompoundActorReference::id`: the
reference's entity type resolves and is `Person` or `Service`. -/
def is_person_like (x : ActorReferenceT) : Bool :=
  match x.entity_type with
  | none => false
  | some entity_type =>
    match entity_type with
    | .Person | .Service => true
    | _ => false

/-- `CompoundActorReference::id`: the single reference's id, or — for a
list — the id of the first Person/Service-typed reference, falling back
to the first reference's id; `none` for an empty list. -/
def CompoundActorReference.id (c : CompoundActorReference) : Option UrlT :=
  match c with
  | .Reference actor_ref => some actor_ref.id
  | .List actor_refs =>
    match actor_refs.find? is_person_like with
    | some actor_reference => some actor_reference.id
    | none => actor_refs.head?.map (·.id)

/-- `CompoundActorReference::as_id_vec`. -/
def CompoundActorReference.as_id_vec (c : CompoundActorReference) :
    ListT UrlT :=
  match c with
  | .Reference reference => [reference.id]
  | .List list => list.map (·.id)

/-- `ContentMap` from `content.rs`: the `contentMap` property, either a
proper language-to-content dictionary (modelled as an association list of
its entries) or the rare bare-list variant. -/
inductive ContentMap where
  | Map (m : List (String × String))
  | List (l : List String)

/-- `ContentMap::as_map`: the dictionary variant yields its entries; the
list variant yields the empty map when empty and otherwise a single
`"default"` entry holding the first element. -/
def ContentMap.as_map (c : ContentMap) : ListT (String × String) :=
  match c with
  | .Map map => map
  | .List list =>
    if list.isEmpty then
      []
    else
      match list.head? with
      | some first => [("default", first)]
      | none => []

/-- `Content` from `content.rs`. The `published` timestamp is modelled as
an integer (Unix epoch value); no claim inspects it. -/
structure Content where
  object_entity : Object
  attributed_to : CompoundActorReference
  indexable : Option Bool
  discoverable : Option Bool
  published : Int
  sensitive : Option Bool
  searchable_by : Option (List Url)
  summary : Option String
  content : Option String
  content_map : Option ContentMap
  tag : Option TagReference
  attachment : Option AttachmentReference
  icon : Option ImageReference

/-- `ObjectTrait::context` for `Content`. -/
def Content.context (c : Content) : Option Context :=
  c.object_entity.context

/-- `ObjectTrait::object_id` for `Content`. -/
def Content.object_id (c : Content) : Url :=
  c.object_entity.object_id

/-- `ObjectTrait::entity_type` for `Content`. -/
def Content.entity_type (c : Content) : EntityType :=
  c.object_entity.entity_type

/-- `Content::get_discoverable_state(default_state)`: `searchableBy`
match first, then the `indexable` flag, then the `discoverable` flag,
then the caller-supplied default. -/
def Content.get_discoverable_state (c : Content)
    (default_state : Discoverable) : Discoverable :=
  match searchable_by_verdict c.searchable_by with
  | some reason => reason
  | none =>
    match c.indexable with
    | some true => .Allowed .Indexable
    | some false => .Denied .Indexable
    | none =>
      match c.discoverable with
      | some true => .Allowed .Discoverable
      | some false => .Denied .Discoverable
      | none => default_state

/-- `Content::get_optin_discoverable_state`. -/
def Content.get_optin_discoverable_state (c : Content) : Discoverable :=
  c.get_discoverable_state (.Denied .Default)

/-- `Content::get_optout_discoverable_state`. -/
def Content.get_optout_discoverable_state (c : Content) : Discoverable :=
  c.get_discoverable_state (.Allowed .Assumed)

/-- `Activity` from `activity.rs`: object header, raw JSON payload, and
actor reference. -/
structure Activity where
  object_entity : Object
  object : Json
  actor : CompoundActorReference

/-- `ObjectTrait::context` for `Activity`. -/
def Activity.context (a : Activity) : Option Context :=
  a.object_entity.context

/-- `ObjectTrait::object_id` for `Activity`. -/
def Activity.object_id (a : Activity) : Url :=
  a.object_entity.object_id

/-- `ObjectTrait::entity_type` for `Activity`. -/
def Activity.entity_type (a : Activity) : EntityType :=
  a.object_entity.entity_type

/-- `Activity::activity_id`. -/
def Activity.activity_id (a : Activity) : Url :=
  a.object_id

/-- `Activity::inner_object_type`: the payload's `type` string converted
via `entity_type_from`; `Unknown` when the payload is not an object or
has no string `type`. -/
def Activity.inner_object_type (a : Activity) : EntityType :=
  if a.object.is_object then
    match (a.object.get "type").bind Json.as_str with
    | some value => entity_type_from value
    | none => .Unknown
  else
    .Unknown

/-- `Activity::inner_object_id`: the payload's `id` (or the payload
itself when it is a bare string) parsed as a URL. -/
def Activity.inner_object_id (a : Activity) : Option Url :=
  if a.object.is_object then
    ((a.object.get "id").bind Json.as_str).bind Url.parse
  else if a.object.is_string then
    a.object.as_str.bind Url.parse
  else
    none

/-- `Activity::value_matches_string`: true when `value` is a JSON string
containing `pattern`. -/
def value_matches_string (value : Json) (pattern : String) : Bool :=
  match value.as_str with
  | some s => strContains s pattern
  | none => false

/-- `Activity::to_field_matches`: the recipient-address matching
predicate of `activity.rs` lines 123–169. -/
def Activity.to_field_matches (a : Activity) (pattern : String) : Bool :=
  if a.object_entity.matches pattern then
    true
  else if a.object.is_string then
    value_matches_string a.object pattern
  else if !a.object.is_object then
    false
  else
    match a.object.get "to" with
    | none => false
    | some to_value =>
      if to_value.is_string then
        value_matches_string to_value pattern
      else if to_value.is_array then
        match to_value.as_array with
        | some vec => vec.any (fun value => value_matches_string value pattern)
        | none => false
      else if to_value.is_object then
        match to_value.get "id" with
        | some value => value_matches_string value pattern
        | none => false
      else
        false

/-- `Activity::inner_object_as_string`. -/
def Activity.inner_object_as_string (a : Activity) : Option String :=
  a.object.as_str

/-! Specification-side predicates and sample data used by the theorems. -/

/-- An attachment qualifying for the fedineko verdict: type
`PropertyValue`, name `fedineko:index`, non-absent content. -/
def isQualifyingFedineko (att : Attachment) : Bool :=
  decide (att.object_type = EntityType.PropertyValue) &&
  decide (att.name = some "fedineko:index") &&
  att.content.isSome

/-- A URL granting public searchability: the well-known public-timeline
address or the system's own public-searchable address. -/
def is_public_url (u : Url) : Bool :=
  decide (u.str = "https://www.w3.org/ns/activitystreams#Public") ||
  decide (u.str = "https://fedineko.org/indexing#Public")

/-- One entry of a `to` value, matched the way the claim for
`to_field_matches` reads: by its string form when it is a string, or by
its nested `id` field when it is an object. -/
def to_entry_matches (e : Json) (pattern : String) : Bool :=
  match e with
  | .str s => strContains s pattern
  | .obj _ =>
    match e.get "id" with
    | some v => value_matches_string v pattern
    | none => false
  | _ => false

/-- The claim's reading of `Activity::to_field_matches`: (a) the
activity-level recipient field contains the pattern, (b) the payload is a
bare string containing the pattern, or (c) the payload is an object whose
`to` property — a string, a list of strings/objects, or a single object —
contains an entry whose string form or nested `id` field contains the
pattern (so an object entry inside a list is consulted via its `id`). -/
def claimed_to_field_matches (a : Activity) (pattern : String) : Bool :=
  a.object_entity.matches pattern ||
  (match a.object with
   | .str s => strContains s pattern
   | .obj _ =>
     (match a.object.get "to" with
      | none => false
      | some to_value =>
        match to_value with
        | .str _ => to_entry_matches to_value pattern
        | .arr entries =>
          entries.any (fun e => to_entry_matches e pattern)
        | .obj _ => to_entry_matches to_value pattern
        | _ => false)
   | _ => false)

/-- The amended reading of `Activity::to_field_matches`, changed from
`claimed_to_field_matches` only where the counterexample forces it: an
entry inside a list is consulted only via its string form (its nested
`id` is not consulted); a nested `id` field is consulted only when the
`to` property is itself a single object. -/
def amended_to_field_matches (a : Activity) (pattern : String) : Bool :=
  a.object_entity.matches pattern ||
  (match a.object with
   | .str s => strContains s pattern
   | .obj _ =>
     (match a.object.get "to" with
      | none => false
      | some to_value =>
        match to_value with
        | .str s => strContains s pattern
        | .arr entries =>
          entries.any (fun e => value_matches_string e pattern)
        | .obj _ =>
          (match to_value.get "id" with
           | some v => value_matches_string v pattern
           | none => false)
        | _ => false)
   | _ => false)

/-- A minimal `Object` header used to build sample actors and content. -/
def sample_object (id : String) (ty : EntityType) (ctx : Option Context) :
    Object :=
  { entity := { context := ctx, object_type := ty },
    id := ⟨id⟩, name := none, url := none, to_field := none }

/-- A sample actor with every optional field absent; witnesses override
the fields they exercise. -/
def base_actor : Actor :=
  { object_entity := sample_object "https://example.org/users/alice" .Person none,
    inbox := ⟨"https://example.org/users/alice/inbox"⟩,
    followers := none, following := none, preferred_username := none,
    endpoints := none, name_map := none, summary := none, icon := none,
    public_key := none, indexable := none, discoverable := none,
    searchable_by := none, tag := none, attachment := none }

/-- A sample content item with every optional field absent; witnesses
override the fields they exercise. -/
def base_content : Content :=
  { object_entity := sample_object "https://example.org/notes/1" .Note none,
    attributed_to := .Reference (.Url ⟨"https://example.org/users/alice"⟩),
    indexable := none, discoverable := none, published := 0,
    sensitive := none, searchable_by := none, summary := none,
    content := none, content_map := none, tag := none,
    attachment := none, icon := none }

/-- The fedineko opt-in attachment used by the C1 witness. -/
def c1_attachment : Attachment :=
  { object_type := .PropertyValue, content := some "allow",
    name := some "fedineko:index", url := none, media_type := none }

/-- The C1 witness actor: a qualifying `fedineko:index = allow`
attachment together with conflicting `indexable`/`discoverable` denials
and a context declaring both terms. -/
def c1_actor : Actor :=
  { base_actor with
    object_entity := sample_object "https://example.org/users/alice" .Person
      (some (.List [.Mapping [("indexable", .str "toot:indexable"),
                              ("discoverable", .str "toot:discoverable")]])),
    indexable := some false,
    discoverable := some false,
    attachment := some (.List [c1_attachment]) }

/-- The C2 witness actor: no attachments, no `searchableBy`, no
`@context` at all. -/
def c2_actor : Actor := base_actor

/-- The C3 witness content: `searchableBy` holds the public-timeline URL
while `indexable` denies. -/
def c3_content : Content :=
  { base_content with
    searchable_by := some [⟨"https://www.w3.org/ns/activitystreams#Public"⟩],
    indexable := some false }

/-- The C4 witness list `[Group, Person]` of actor references. -/
def c4_group_ref : ActorReference :=
  .BasicData (sample_object "https://example.org/groups/g" .Group none)

/-- The Person reference of the C4 witness list. -/
def c4_person_ref : ActorReference :=
  .BasicData (sample_object "https://example.org/users/p" .Person none)

/-- The C5 scenario activity: top-level `to` is the public address, the
payload is a Tombstone object whose `to` is `https://1.2/3`. -/
def c5_activity : Activity :=
  { object_entity :=
      { entity := { context := none, object_type := .Delete },
        id := ⟨"https://mastodon.world/users/x/statuses/1#delete"⟩,
        name := none, url := none,
        to_field := some ["https://www.w3.org/ns/activitystreams#Public"] },
    object := .obj [("atomUri", .str "https://mastodon.world/users/x/statuses/1"),
                    ("id", .str "https://mastodon.world/users/x/statuses/1"),
                    ("type", .str "Tombstone"),
                    ("to", .str "https://1.2/3")],
    actor := .Reference (.Url ⟨"https://mastodon.world/users/x"⟩) }

/-- The C5 counterexample activity: its payload's `to` is a list holding
a single object whose `id` is `https://cex.example/id`. -/
def c5_cex_activity : Activity :=
  { object_entity :=
      { entity := { context := none, object_type := .Delete },
        id := ⟨"https://cex.example/act"⟩,
        name := none, url := none, to_field := none },
    object := .obj [("to", .arr [.obj [("id", .str "https://cex.example/id")]])],
    actor := .Reference (.Url ⟨"https://cex.example/u"⟩) }

/-- Modelled from the spec: serde decoding of a Mention tag
`{"type": "Mention", "href": h, "name": n}`. The deserializer itself is
library code not present in the sources; per the spec scenario and the
repository's own `tag.rs` test, decoding succeeds even for an empty
`href`, which yields an absent identifier because the empty string is not
a valid URL. -/
def decode_mention_tag (href name : String) : Option Tag :=
  some { entity := { context := none, object_type := .Mention },
         id := (Url.parse href).map UrlReference.Url,
         name := some name,
         icon := none }

/-- The first (well-formed) Mention of the C8 scenario, as decoded. -/
def c8_first_tag : Tag :=
  { entity := { context := none, object_type := .Mention },
    id := some (.Url ⟨"https://b.network/profile/a"⟩),
    name := some "@a@b.network", icon := none }

/-- The second (empty-`href`) Mention of the C8 scenario, as decoded. -/
def c8_second_tag : Tag :=
  { entity := { context := none, object_type := .Mention },
    id := none,
    name := some "@a@b.chat", icon := none }

/-- The C10 witness actor: context declares the security schema URL but
no public key is present. -/
def c10_actor : Actor :=
  { base_actor with
    object_entity := sample_object "https://example.org/users/alice" .Person
      (some (.List [.Url ⟨"https://w3id.org/security/v1"⟩])) }

/-! Theorems. -/

/-- The attachment loop of `Actor::get_discoverable_state` returns the
verdict of the first qualifying attachment (type `PropertyValue`, name
`fedineko:index`, non-absent content), mapped through the
allow-on-`"allow"` rule, and `none` when no attachment qualifies. -/
theorem fedineko_scan_eq_find (l : List Attachment) :
    fedineko_attachment_scan l =
      (l.find? isQualifyingFedineko).map
        (fun att =>
          if att.content = some "allow" then
            Discoverable.Allowed .FedinekoProperty
          else
            Discoverable.Denied .FedinekoProperty) := by
  induction l with
  | nil => rfl
  | cons a t ih =>
    by_cases h1 : a.object_type = EntityType.PropertyValue
    · cases hn : a.name with
      | none =>
        rw [List.find?_cons_of_neg _ (by simp [isQualifyingFedineko, hn])]
        simp [fedineko_attachment_scan, h1, hn, ih]
      | some n =>
        cases hc : a.content with
        | none =>
          rw [List.find?_cons_of_neg _ (by simp [isQualifyingFedineko, hc])]
          simp [fedineko_attachment_scan, h1, hn, hc, ih]
        | some c =>
          by_cases hfn : n = "fedineko:index"
          · subst hfn
            rw [List.find?_cons_of_pos _
              (by simp [isQualifyingFedineko, h1, hn, hc])]
            simp [fedineko_attachment_scan, h1, hn, hc]
          · rw [List.find?_cons_of_neg _
              (by simp [isQualifyingFedineko, hn, hfn])]
            simp [fedineko_attachment_scan, h1, hn, hc, hfn, ih]
    · rw [List.find?_cons_of_neg _ (by simp [isQualifyingFedineko, h1])]
      simp [fedineko_attachment_scan, h1, ih]

/-- `is_public_searchable_by` yields the allow-verdict of the first URL
in the list equal to one of the two public addresses, and `none` when no
URL matches. -/
theorem is_public_searchable_by_eq_find (l : List Url) :
    is_public_searchable_by l =
      (l.find? is_public_url).map
        (fun u => Discoverable.Allowed (.SearchableBy u.str)) := by
  induction l with
  | nil => rfl
  | cons u t ih =>
    by_cases h : u.str = "https://www.w3.org/ns/activitystreams#Public" ∨
        u.str = "https://fedineko.org/indexing#Public"
    · rw [List.find?_cons_of_pos _ (by simp [is_public_url]; tauto)]
      simp [is_public_searchable_by, h]
    · rw [List.find?_cons_of_neg _ (by simp [is_public_url]; tauto)]
      simp [is_public_searchable_by, h, ih]

/-- C1: for every actor whose attachment list has a first qualifying
entry (type `PropertyValue`, name `fedineko:index`, non-absent content),
`Actor::get_discoverable_state` returns `Allowed(FedinekoProperty)` when
that entry's content is `"allow"` and `Denied(FedinekoProperty)`
otherwise, regardless of the actor's `indexable`, `discoverable`,
`searchableBy` or `@context` values, and without consulting later
qualifying attachments. -/
theorem actor_fedineko_attachment_priority (a : Actor) (att : Attachment)
    (h : a.attachments_vec.find? isQualifyingFedineko = some att) :
    ∃ c, att.content = some c ∧
      a.get_discoverable_state =
        (if c = "allow" then Discoverable.Allowed .FedinekoProperty
         else Discoverable.Denied .FedinekoProperty) := by
  have hq : isQualifyingFedineko att = true := List.find?_some h
  have hsome : att.content.isSome := by
    simp [isQualifyingFedineko] at hq
    exact hq.2
  obtain ⟨c, hc⟩ := Option.isSome_iff_exists.mp hsome
  refine ⟨c, hc, ?_⟩
  unfold Actor.get_discoverable_state
  rw [fedineko_scan_eq_find, h]
  simp [hc]

/-- C1 witness: the sample actor with a `fedineko:index = allow`
attachment and conflicting `indexable = discoverable = false` flags is
allowed by the fedineko property. -/
theorem actor_fedineko_attachment_priority_witness :
    ∃ c, c1_attachment.content = some c ∧
      c1_actor.get_discoverable_state =
        (if c = "allow" then Discoverable.Allowed .FedinekoProperty
         else Discoverable.Denied .FedinekoProperty) :=
  actor_fedineko_attachment_priority c1_actor c1_attachment rfl

/-- C2: for every actor whose attachment scan produces no fedineko
verdict and whose `searchableBy` yields no public match,
`Actor::get_discoverable_state` returns `Denied(Default)` when `@context`
is absent; otherwise, when the context declares `indexable`, the verdict
follows the `indexable` field with `Denied(Indexable)` for both `false`
and absent (never falling through to `discoverable`); otherwise, when the
context declares `discoverable`, the analogous `Discoverable`-reasoned
mapping applies; otherwise the verdict is `Allowed(Assumed)`. -/
theorem actor_context_flag_resolution (a : Actor)
    (hatt : fedineko_attachment_scan a.attachments_vec = none)
    (hsb : searchable_by_verdict a.searchable_by = none) :
    (a.context = none → a.get_discoverable_state = .Denied .Default) ∧
    (∀ ctx, a.context = some ctx →
      ((ctx.has_definition "indexable" = true →
         a.get_discoverable_state =
           (match a.indexable with
            | some true => Discoverable.Allowed .Indexable
            | some false => Discoverable.Denied .Indexable
            | none => Discoverable.Denied .Indexable)) ∧
       (ctx.has_definition "indexable" = false →
        ctx.has_definition "discoverable" = true →
         a.get_discoverable_state =
           (match a.discoverable with
            | some true => Discoverable.Allowed .Discoverable
            | some false => Discoverable.Denied .Discoverable
            | none => Discoverable.Denied .Discoverable)) ∧
       (ctx.has_definition "indexable" = false →
        ctx.has_definition "discoverable" = false →
         a.get_discoverable_state = .Allowed .Assumed))) := by
  unfold Actor.get_discoverable_state
  rw [hatt, hsb]
  constructor
  · intro hctx
    rw [hctx]
  · intro ctx hctx
    rw [hctx]
    refine ⟨fun hdef => ?_, fun hdef1 hdef2 => ?_, fun hdef1 hdef2 => ?_⟩
    · simp only [hdef, if_true]
    · simp [hdef1, hdef2]
    · simp [hdef1, hdef2]

/-- C2 witness: the sample actor with no attachments, no `searchableBy`
and no `@context` at all is denied by default. -/
theorem actor_context_flag_resolution_witness :
    c2_actor.get_discoverable_state = .Denied .Default :=
  (actor_context_flag_resolution c2_actor rfl rfl).1 rfl

/-- C3: `Content::get_discoverable_state(default)` returns
`Allowed(SearchableBy(matched url))` for the first public URL in
`searchableBy`, overriding `indexable`/`discoverable`; otherwise, exactly
when `indexable` is present, its boolean decides an `Indexable`-reasoned
verdict; otherwise, exactly when `discoverable` is present, its boolean
decides a `Discoverable`-reasoned verdict; otherwise the caller-supplied
default is returned — and the opt-in mode instantiates the default to
`Denied(Default)` while the opt-out mode instantiates it to
`Allowed(Assumed)`. -/
theorem content_discoverable_resolution (c : Content) (d : Discoverable) :
    (∀ sb u, c.searchable_by = some sb → sb.find? is_public_url = some u →
       c.get_discoverable_state d = .Allowed (.SearchableBy u.str)) ∧
    (searchable_by_verdict c.searchable_by = none →
      ((∀ b, c.indexable = some b →
         c.get_discoverable_state d =
           (if b then Discoverable.Allowed .Indexable
            else Discoverable.Denied .Indexable)) ∧
       (c.indexable = none →
         ((∀ b, c.discoverable = some b →
            c.get_discoverable_state d =
              (if b then Discoverable.Allowed .Discoverable
               else Discoverable.Denied .Discoverable)) ∧
          (c.discoverable = none → c.get_discoverable_state d = d))))) ∧
    c.get_optin_discoverable_state =
      c.get_discoverable_state (.Denied .Default) ∧
    c.get_optout_discoverable_state =
      c.get_discoverable_state (.Allowed .Assumed) := by
  refine ⟨?_, ?_, rfl, rfl⟩
  · intro sb u hsb hfind
    have hv : searchable_by_verdict c.searchable_by =
        some (.Allowed (.SearchableBy u.str)) := by
      rw [hsb]
      show is_public_searchable_by sb = _
      rw [is_public_searchable_by_eq_find, hfind]
      rfl
    simp only [Content.get_discoverable_state, hv]
  · intro hnone
    refine ⟨fun b hb => ?_, fun hidx => ⟨fun b hb => ?_, fun hd => ?_⟩⟩
    · simp only [Content.get_discoverable_state, hnone, hb]
      cases b <;> rfl
    · simp only [Content.get_discoverable_state, hnone, hidx, hb]
      cases b <;> rfl
    · simp only [Content.get_discoverable_state, hnone, hidx, hd]

/-- C3 witness: content whose `searchableBy` holds the public-timeline
URL is allowed by `SearchableBy` even though `indexable` is `false`, in
opt-in mode. -/
theorem content_discoverable_resolution_witness :
    c3_content.get_discoverable_state (.Denied .Default) =
      .Allowed (.SearchableBy "https://www.w3.org/ns/activitystreams#Public") :=
  (content_discoverable_resolution c3_content (.Denied .Default)).1
    [⟨"https://www.w3.org/ns/activitystreams#Public"⟩]
    ⟨"https://www.w3.org/ns/activitystreams#Public"⟩ rfl rfl

/-- C4: `CompoundActorReference::id` returns the single reference's id;
for a list, the id of the first element whose entity type resolves to
`Person` or `Service`, or the first element's id when no element
qualifies, and `none` for an empty list. -/
theorem compound_actor_id_resolution (r : ActorReference)
    (l : List ActorReference) :
    (CompoundActorReference.Reference r).id = some r.id ∧
    (CompoundActorReference.List ([] : List ActorReference)).id = none ∧
    (∀ x, l.find? is_person_like = some x →
       (CompoundActorReference.List l).id = some x.id) ∧
    (l.find? is_person_like = none →
       (CompoundActorReference.List l).id = l.head?.map ActorReference.id) := by
  refine ⟨rfl, rfl, fun x hx => ?_, fun h => ?_⟩
  · simp only [CompoundActorReference.id, hx]
  · simp only [CompoundActorReference.id, h]

/-- C4 witness: for the reference list `[Group, Person]`, identifier
resolution returns the Person's id. -/
theorem compound_actor_id_resolution_witness :
    (CompoundActorReference.List [c4_group_ref, c4_person_ref]).id =
      some c4_person_ref.id :=
  (compound_actor_id_resolution c4_person_ref
    [c4_group_ref, c4_person_ref]).2.2.1 c4_person_ref rfl

/-- C5 counterexample: for the activity whose payload's `to` property is
a list holding one object with `id = "https://cex.example/id"`,
`to_field_matches` returns `false` although the claim's reading — which
consults the nested `id` field of entries of a list — matches. -/
theorem to_field_matches_claim_cex :
    c5_cex_activity.to_field_matches "https://cex.example/id" = false ∧
    claimed_to_field_matches c5_cex_activity "https://cex.example/id" = true :=
  ⟨rfl, rfl⟩

/-- C5 (amended): `Activity::to_field_matches(pattern)` returns true iff
(a) the activity-level recipient field textually contains the pattern, or
(b) the payload is a bare string containing the pattern, or (c) the
payload is a JSON object whose `to` property matches — when `to` is a
string, by containing the pattern; when `to` is a list, by some entry's
string form containing the pattern (object entries of a list are not
consulted via their nested `id`); when `to` is a single object, by its
nested `id` field containing the pattern. In particular, for the scenario
activity whose top-level `to` is the public address and whose payload
object has `to = "https://1.2/3"`, both patterns match. -/
theorem to_field_matches_amended :
    (∀ (a : Activity) (pattern : String),
       a.to_field_matches pattern = amended_to_field_matches a pattern) ∧
    c5_activity.to_field_matches
      "https://www.w3.org/ns/activitystreams#Public" = true ∧
    c5_activity.to_field_matches "https://1.2/3" = true := by
  refine ⟨?_, rfl, rfl⟩
  intro a pattern
  unfold Activity.to_field_matches amended_to_field_matches
  cases hm : a.object_entity.matches pattern
  · simp only [Bool.false_or, Bool.false_eq_true, if_false]
    cases ho : a.object with
    | null => rfl
    | bool b => rfl
    | num n => rfl
    | str s => simp [Json.is_string, value_matches_string, Json.as_str]
    | arr items => rfl
    | obj fields =>
      simp only [Json.is_string, Json.is_object, Bool.false_eq_true,
        if_false, Bool.not_true, Bool.not_false, if_true]
      cases hto : (Json.obj fields).get "to" with
      | none => rfl
      | some tv =>
        cases tv with
        | null => rfl
        | bool b => rfl
        | num n => rfl
        | str s => simp [Json.is_string, value_matches_string, Json.as_str]
        | arr entries => simp [Json.is_string, Json.is_array, Json.as_array]
        | obj f2 => simp [Json.is_string, Json.is_array, Json.is_object]
  · simp [hm]

/-- C6: the wire string `"Movie"` is mapped by `entity_type_from` to
`EntityType::Page`, not to the distinct `EntityType::Movie` value, even
though `Movie` is accepted by `is_supported_content_type`. -/
theorem movie_wire_string_maps_to_page :
    entity_type_from "Movie" = EntityType.Page ∧
    EntityType.Page ≠ EntityType.Movie ∧
    entity_type_from "Movie" ≠ EntityType.Movie ∧
    is_supported_content_type EntityType.Movie = true :=
  ⟨rfl, by decide, by decide, rfl⟩

/-- C7: decoding a `type` value never fails on an unrecognized string —
deserialization degrades to `EntityType::Unknown` for every string
outside the closed set of recognized variant names, and
`entity_type_from` likewise returns `Unknown` for every string it does
not match. -/
theorem unrecognized_type_degrades_to_unknown (s : String) :
    (s ∉ entityTypeWireNames → deserialize_entity_type s = .Unknown) ∧
    (s ∉ entityTypeFromNames → entity_type_from s = .Unknown) := by
  constructor
  · intro h1
    unfold deserialize_entity_type
    have hf : entityTypeWireTable.find? (fun p => p.1 == s) = none := by
      rw [List.find?_eq_none]
      intro x hx
      simp only [beq_iff_eq]
      intro hxs
      exact h1 (hxs ▸ List.mem_map_of_mem (·.1) hx)
    rw [hf]
  · intro h2
    unfold entity_type_from
    split
    all_goals first
      | rfl
      | simp_all [entityTypeFromNames]

/-- C7 witness: the fully unrecognized string `"Banana"` decodes to
`Unknown` through both conversions, and `"Page"` — a recognized wire
name that `entity_type_from` nevertheless does not match — is taken to
`Unknown` by `entity_type_from`. -/
theorem unrecognized_type_degrades_to_unknown_witness :
    deserialize_entity_type "Banana" = .Unknown ∧
    entity_type_from "Banana" = .Unknown ∧
    entity_type_from "Page" = .Unknown :=
  ⟨(unrecognized_type_degrades_to_unknown "Banana").1 (by decide),
   (unrecognized_type_degrades_to_unknown "Banana").2 (by decide),
   (unrecognized_type_degrades_to_unknown "Page").2 (by decide)⟩

/-- C8: a Mention tag with an empty `href` decodes without error and its
`object_id` is absent (the empty string is not a valid URL), while the
sibling Mention in the same list with a well-formed URL yields that URL
as its identifier. -/
theorem mention_empty_href_scenario :
    decode_mention_tag "https://b.network/profile/a" "@a@b.network" =
      some c8_first_tag ∧
    decode_mention_tag "" "@a@b.chat" = some c8_second_tag ∧
    c8_second_tag.object_id = none ∧
    c8_first_tag.object_id = some ⟨"https://b.network/profile/a"⟩ ∧
    (TagReference.List [c8_first_tag, c8_second_tag]).as_vec.length = 2 :=
  ⟨rfl, rfl, rfl, rfl, rfl⟩

/-- C9: for the list variant of `ContentMap`, `as_map` returns the empty
map when the list is empty and otherwise a single `"default"` entry
holding the first element; elements after the first are ignored (the
right-hand side does not depend on `xs`). -/
theorem content_map_list_as_map (x : String) (xs : List String) :
    (ContentMap.List ([] : List String)).as_map = [] ∧
    (ContentMap.List (x :: xs)).as_map = [("default", x)] :=
  ⟨rfl, rfl⟩

/-- C10: `Actor::validate_security_context` returns `none` exactly when
the actor's `@context` is present, matches the security schema URL, and
the actor's public key is absent; in every other case it returns the
actor itself unchanged. -/
theorem validate_security_context_characterization (a : Actor) :
    (a.validate_security_context = none ↔
      (∃ ctx, a.context = some ctx ∧
        ctx.matches_url security_context_url = true ∧
        a.public_key = none)) ∧
    (a.validate_security_context = none ∨
     a.validate_security_context = some a) := by
  unfold Actor.validate_security_context
  cases hctx : a.context with
  | none => simp
  | some ctx =>
    cases hmu : ctx.matches_url security_context_url with
    | false => simp [hmu]
    | true =>
      cases hpk : a.public_key with
      | none => simp [hmu, hpk]
      | some k => simp [hmu, hpk]

/-- C10 witness: the sample actor whose context lists the security schema
URL but which has no public key fails validation. -/
theorem validate_security_context_characterization_witness :
    c10_actor.validate_security_context = none :=
  ((validate_security_context_characterization c10_actor).1).mpr
    ⟨.List [.Url ⟨"https://w3id.org/security/v1"⟩], rfl, rfl, rfl⟩

end LazyActivityPub
